import Mathlib

/-!
Shallow embedding of `src/api/src/internal/global-utils.ts`: the versioned,
process-wide singleton registry of the OpenTelemetry JS API.

The registry stores opaque implementation instances (modelled by a type
parameter `α`) under a fixed closed set of capability names, in two tables
living on the shared global object: the Primary API Table (under a key derived
from the major version) and the Scoped API Table (under a key derived from the
major version and a per-process instance identifier).

External collaborators are parameters:
  * `version`  — the build's `VERSION` string (`src/version.ts` is not part of
    the embedded source; the spec states it is an exact semantic version
    string, hence nonempty where that matters);
  * `compat`   — the `isCompatible` predicate from `./semver`;
  * the diagnostic logger — modelled by the list of emitted `LogEvent`s.
-/

namespace OTelGlobalUtils

/-- The fixed closed set of capability names (`keyof OTelGlobalAPI` minus
`version`): `diag`, `trace`, `context`, `metrics`, `propagation`. -/
inductive Typ : Type where
  | diag
  | trace
  | context
  | metrics
  | propagation
deriving DecidableEq, Repr

/-- Rendering of a capability name as it appears in diagnostic messages
(string interpolation of `type` in the source). -/
def typName : Typ → String
  | .diag => "diag"
  | .trace => "trace"
  | .context => "context"
  | .metrics => "metrics"
  | .propagation => "propagation"

/-- An API Table (`OTelGlobalAPI` in the source): a `version` stamp plus one
optional slot per capability, each holding an opaque instance of type `α`.
An absent slot models the property being `undefined` on the JS object. -/
structure OTelGlobalAPI (α : Type) : Type where
  version : String
  diag : Option α
  trace : Option α
  context : Option α
  metrics : Option α
  propagation : Option α
deriving DecidableEq, Repr

/-- A fresh table `{ version: VERSION }`: version stamped, all slots absent. -/
def newApiTable (version : String) : OTelGlobalAPI α :=
  { version := version, diag := none, trace := none, context := none,
    metrics := none, propagation := none }

/-- Read the named slot of a table (`api[type]`). -/
def getSlot (api : OTelGlobalAPI α) : Typ → Option α
  | .diag => api.diag
  | .trace => api.trace
  | .context => api.context
  | .metrics => api.metrics
  | .propagation => api.propagation

/-- Write the named slot of a table (`api[type] = instance`). -/
def setSlot (api : OTelGlobalAPI α) (t : Typ) (inst : α) : OTelGlobalAPI α :=
  match t with
  | .diag => { api with diag := some inst }
  | .trace => { api with trace := some inst }
  | .context => { api with context := some inst }
  | .metrics => { api with metrics := some inst }
  | .propagation => { api with propagation := some inst }

/-- Delete the named slot of a table (`delete api[type]`). -/
def delSlot (api : OTelGlobalAPI α) (t : Typ) : OTelGlobalAPI α :=
  match t with
  | .diag => { api with diag := none }
  | .trace => { api with trace := none }
  | .context => { api with context := none }
  | .metrics => { api with metrics := none }
  | .propagation => { api with propagation := none }

/-- The Shared Global Object (`_global`), restricted to the two keys this
module ever touches: `primary` is the entry under
`Symbol.for("opentelemetry.js.api.<major>")`, `scopedTable` the entry under
`Symbol.for("opentelemetry.js.api.<major>.instance.<instanceId>")`.
The two key strings differ, so the two entries are independent. -/
structure OTelGlobal (α : Type) : Type where
  primary : Option (OTelGlobalAPI α)
  scopedTable : Option (OTelGlobalAPI α)
deriving DecidableEq, Repr

/-- Module-level mutable/constant state of `global-utils.ts`:
`instanceId` is `const instanceId = new Date().getMilliseconds()` (an
`Option` so that "not yet materialized" is expressible; the module
initializer always sets it), and `scopedKey` is the
`let SCOPED_OPENTELEMETRY_API_KEY: symbol` variable, `none` while still
uninitialized. A `Symbol.for` symbol is identified with its key string. -/
structure ModuleState : Type where
  instanceId : Option Nat
  scopedKey : Option String
deriving DecidableEq, Repr

/-- Module initialization: `instanceId` is sourced eagerly from the clock
(`new Date().getMilliseconds()`) at module load; the scoped key symbol is
left uninitialized. -/
def moduleInit (clock : Nat) : ModuleState :=
  { instanceId := some clock, scopedKey := none }

/-- `VERSION.split('.')[0]` — the major version component. -/
def majorOf (version : String) : String :=
  (version.splitOn ".").headD ""

/-- How the `instanceId` const renders in strings (`undefined` would only
appear if it were read unset, which module initialization prevents). -/
def instanceIdStr (ms : ModuleState) : String :=
  match ms.instanceId with
  | some i => toString i
  | none => "undefined"

/-- The scoped key string
`opentelemetry.js.api.<major>.instance.<instanceId>`. -/
def scopedKeyFor (version : String) (ms : ModuleState) : String :=
  "opentelemetry.js.api." ++ majorOf version ++ ".instance." ++ instanceIdStr ms

/-- A call to the diagnostic logger: `diag.debug(msg)` or `diag.error(msg)`.
For error events the source logs `err.stack || err.message`; we record the
message (the claims only inspect the level, never the exact text). -/
inductive LogEvent : Type where
  | debug (msg : String)
  | error (msg : String)
deriving DecidableEq, Repr

/-- Everything `registerGlobal` produces: the boolean return value, the new
module state, the new shared global object, and the logger calls emitted,
in order. -/
structure RegResult (α : Type) : Type where
  ret : Bool
  ms : ModuleState
  g : OTelGlobal α
  log : List LogEvent
deriving DecidableEq, Repr

/-- First section of `registerGlobal`:

    if (allowOverride && !SCOPED_OPENTELEMETRY_API_KEY) {
      SCOPED_OPENTELEMETRY_API_KEY = Symbol.for(`...instance.n`);
    }

An unassigned `let ...: symbol` is `undefined` (falsy); a symbol is truthy. -/
def materializeScopedKey (version : String) (allowOverride : Bool)
    (ms : ModuleState) : ModuleState :=
  if allowOverride ∧ ms.scopedKey = none then
    { ms with scopedKey := some (scopedKeyFor version ms) }
  else ms

/-- Second section of `registerGlobal`:

    if (allowOverride && SCOPED_OPENTELEMETRY_API_KEY) {
      const scopedApi = (_global[K] = _global[K] ?? { version: VERSION });
      scopedApi[type] = instance;
      diag.debug(`...Registered scoped instance...`);
    }

Returns the updated global object and the emitted log events. -/
def scopedWrite (version : String) (t : Typ) (inst : α) (allowOverride : Bool)
    (ms : ModuleState) (g : OTelGlobal α) : OTelGlobal α × List LogEvent :=
  if allowOverride ∧ ms.scopedKey.isSome then
    let scopedApi := g.scopedTable.getD (newApiTable version)
    ({ g with scopedTable := some (setSlot scopedApi t inst) },
     [LogEvent.debug ("@opentelemetry/api: Registered scoped instance "
        ++ instanceIdStr ms ++ " for " ++ typName t ++ " v" ++ version ++ ".")])
  else (g, [])

/-- Remainder of `registerGlobal`: create-or-fetch the Primary Table, then the
duplicate guard, the version guard, and the slot write.

    const api = (_global[KEY] = _global[KEY] ?? { version: VERSION });
    if (!allowOverride && api[type]) { diag.error(...); return false; }
    if (api.version !== VERSION) { diag.error(...); return false; }
    api[type] = instance; diag.debug(...); return true; -/
def primaryWrite (version : String) (t : Typ) (inst : α) (allowOverride : Bool)
    (g : OTelGlobal α) : Bool × OTelGlobal α × List LogEvent :=
  let api := g.primary.getD (newApiTable version)
  if allowOverride = false ∧ (getSlot api t).isSome then
    (false, { g with primary := some api },
     [LogEvent.error ("@opentelemetry/api: Attempted duplicate registration of API: "
        ++ typName t)])
  else if api.version ≠ version then
    (false, { g with primary := some api },
     [LogEvent.error ("@opentelemetry/api: Registration of version v" ++ api.version
        ++ " for " ++ typName t
        ++ " does not match previously registered API v" ++ version)])
  else
    (true, { g with primary := some (setSlot api t inst) },
     [LogEvent.debug ("@opentelemetry/api: Registered a global for " ++ typName t
        ++ " v" ++ version ++ ".")])

/-- `registerGlobal(type, instance, diag, allowOverride)` (the source defaults
`allowOverride` to `true`; callers here always pass it explicitly). -/
def registerGlobal (version : String) (t : Typ) (inst : α) (allowOverride : Bool)
    (ms : ModuleState) (g : OTelGlobal α) : RegResult α :=
  let ms1 := materializeScopedKey version allowOverride ms
  let s := scopedWrite version t inst allowOverride ms1 g
  let p := primaryWrite version t inst allowOverride s.1
  { ret := p.1, ms := ms1, g := p.2.1, log := s.2 ++ p.2.2 }

/-- `getGlobal(type)`:

    const globalVersion = _global[GLOBAL_OPENTELEMETRY_API_KEY]?.version;
    if (!globalVersion || !isCompatible(globalVersion)) { return; }
    return _global[GLOBAL_OPENTELEMETRY_API_KEY]?.[type];

`!globalVersion` is true when the table is absent (`undefined`) or the
version string is empty (the only falsy string). -/
def getGlobal (compat : String → Bool) (g : OTelGlobal α) (t : Typ) : Option α :=
  match g.primary with
  | none => none
  | some api =>
    if api.version = "" ∨ compat api.version = false then none
    else getSlot api t

/-- `unregisterGlobal(type, diag)`: log a debug message unconditionally, then
delete the named slot of the Primary Table if the table is present. -/
def unregisterGlobal (version : String) (t : Typ) (g : OTelGlobal α) :
    OTelGlobal α × List LogEvent :=
  (match g.primary with
   | some api => { g with primary := some (delSlot api t) }
   | none => g,
   [LogEvent.debug ("@opentelemetry/api: Unregistering a global for " ++ typName t
      ++ " v" ++ version ++ ".")])

/-- One externally visible operation on the registry. -/
inductive Op (α : Type) : Type where
  | register (t : Typ) (inst : α) (allowOverride : Bool)
  | unregister (t : Typ)
  | get (t : Typ)
deriving DecidableEq, Repr

/-- State transition of one operation (log events and return values
discarded). `getGlobal` contains no assignment, so `get` leaves the state
unchanged. -/
def stepOp (version : String) (op : Op α) (s : ModuleState × OTelGlobal α) :
    ModuleState × OTelGlobal α :=
  match op with
  | .register t inst ao =>
    let r := registerGlobal version t inst ao s.1 s.2
    (r.ms, r.g)
  | .unregister t => (s.1, (unregisterGlobal version t s.2).1)
  | .get _ => s

/-- Run a sequence of operations from a starting state. -/
def runOps (version : String) (ops : List (Op α))
    (s : ModuleState × OTelGlobal α) : ModuleState × OTelGlobal α :=
  ops.foldl (fun s op => stepOp version op s) s

/-- The version stamp of the Primary Table, when the table exists. -/
def primVer (g : OTelGlobal α) : Option String :=
  Option.map (fun api => api.version) g.primary

/-- `true` when the operation list contains a `register` with
`allowOverride = true` (an override registration). -/
def hasOverrideReg : List (Op α) → Bool
  | [] => false
  | .register _ _ true :: _ => true
  | _ :: ops => hasOverrideReg ops

end OTelGlobalUtils

namespace OTelGlobalUtils

variable {α : Type}

theorem getSlot_setSlot_same (api : OTelGlobalAPI α) (t : Typ) (inst : α) :
    getSlot (setSlot api t inst) t = some inst := by
  cases t <;> rfl

theorem getSlot_setSlot_ne (api : OTelGlobalAPI α) {t t2 : Typ} (inst : α)
    (h : t ≠ t2) : getSlot (setSlot api t inst) t2 = getSlot api t2 := by
  cases t <;> cases t2 <;> first | rfl | exact absurd rfl h

theorem setSlot_version (api : OTelGlobalAPI α) (t : Typ) (inst : α) :
    (setSlot api t inst).version = api.version := by
  cases t <;> rfl

theorem getSlot_delSlot_same (api : OTelGlobalAPI α) (t : Typ) :
    getSlot (delSlot api t) t = none := by
  cases t <;> rfl

theorem getSlot_delSlot_ne (api : OTelGlobalAPI α) {t t2 : Typ}
    (h : t ≠ t2) : getSlot (delSlot api t) t2 = getSlot api t2 := by
  cases t <;> cases t2 <;> first | rfl | exact absurd rfl h

theorem delSlot_version (api : OTelGlobalAPI α) (t : Typ) :
    (delSlot api t).version = api.version := by
  cases t <;> rfl

theorem getSlot_newApiTable (version : String) (t : Typ) :
    getSlot (newApiTable version : OTelGlobalAPI α) t = none := by
  cases t <;> rfl

theorem scopedWrite_primary (version : String) (t : Typ) (inst : α) (ao : Bool)
    (ms : ModuleState) (g : OTelGlobal α) :
    (scopedWrite version t inst ao ms g).1.primary = g.primary := by
  unfold scopedWrite
  split <;> rfl

theorem primaryWrite_scopedTable (version : String) (t : Typ) (inst : α)
    (ao : Bool) (g : OTelGlobal α) :
    (primaryWrite version t inst ao g).2.1.scopedTable = g.scopedTable := by
  simp only [primaryWrite]
  split
  · rfl
  · split <;> rfl

theorem registerGlobal_ms (version : String) (t : Typ) (inst : α) (ao : Bool)
    (ms : ModuleState) (g : OTelGlobal α) :
    (registerGlobal version t inst ao ms g).ms =
      materializeScopedKey version ao ms := rfl

end OTelGlobalUtils

namespace OTelGlobalUtils

variable {α : Type}

theorem primaryWrite_primVer (version : String) (t : Typ) (inst : α) (ao : Bool)
    (g : OTelGlobal α) :
    primVer (primaryWrite version t inst ao g).2.1 =
      some ((g.primary.getD (newApiTable version)).version) := by
  simp only [primaryWrite]
  split
  · rfl
  · split
    · rfl
    · simp [primVer, setSlot_version]

theorem primaryWrite_ret_true (version : String) (t : Typ) (inst : α) (ao : Bool)
    (g : OTelGlobal α) (h : (primaryWrite version t inst ao g).1 = true) :
    (g.primary.getD (newApiTable version)).version = version := by
  revert h
  simp only [primaryWrite]
  split
  · simp
  · split
    · simp
    · rename_i hne
      intro _
      exact not_ne_iff.mp hne

theorem registerGlobal_primVer (version : String) (t : Typ) (inst : α)
    (ao : Bool) (ms : ModuleState) (g : OTelGlobal α) :
    primVer (registerGlobal version t inst ao ms g).g =
      some ((g.primary.getD (newApiTable version)).version) := by
  show primVer (primaryWrite version t inst ao
      (scopedWrite version t inst ao (materializeScopedKey version ao ms) g).1).2.1 = _
  rw [primaryWrite_primVer, scopedWrite_primary]

theorem registerGlobal_primVer_preserved (version : String) (t : Typ) (inst : α)
    (ao : Bool) (ms : ModuleState) (g : OTelGlobal α) (api : OTelGlobalAPI α)
    (h : g.primary = some api) :
    primVer (registerGlobal version t inst ao ms g).g = some api.version := by
  rw [registerGlobal_primVer, h]
  rfl

theorem registerGlobal_ret_true_primVer (version : String) (t : Typ) (inst : α)
    (ao : Bool) (ms : ModuleState) (g : OTelGlobal α)
    (h : (registerGlobal version t inst ao ms g).ret = true) :
    primVer (registerGlobal version t inst ao ms g).g = some version := by
  rw [registerGlobal_primVer]
  have h2 : (primaryWrite version t inst ao
      (scopedWrite version t inst ao (materializeScopedKey version ao ms) g).1).1 = true := h
  have h3 := primaryWrite_ret_true _ _ _ _ _ h2
  rw [scopedWrite_primary] at h3
  rw [h3]

theorem unregisterGlobal_primVer (version : String) (t : Typ) (g : OTelGlobal α) :
    primVer (unregisterGlobal version t g).1 = primVer g := by
  unfold unregisterGlobal
  cases h : g.primary with
  | none => simp [h, primVer]
  | some api => simp [h, primVer, delSlot_version]

theorem unregisterGlobal_scopedTable (version : String) (t : Typ)
    (g : OTelGlobal α) :
    (unregisterGlobal version t g).1.scopedTable = g.scopedTable := by
  unfold unregisterGlobal
  cases g.primary <;> rfl

theorem stepOp_primVer_preserved (version : String) (op : Op α)
    (s : ModuleState × OTelGlobal α) (v : String)
    (h : primVer s.2 = some v) : primVer (stepOp version op s).2 = some v := by
  cases op with
  | register t inst ao =>
    obtain ⟨api, hapi, hv⟩ : ∃ api, s.2.primary = some api ∧ api.version = v := by
      cases hp : s.2.primary with
      | none => rw [primVer, hp] at h; exact absurd h (by simp)
      | some api =>
        rw [primVer, hp] at h
        exact ⟨api, rfl, by simpa using h⟩
    rw [stepOp, registerGlobal_primVer_preserved version t inst ao s.1 s.2 api hapi, hv]
  | unregister t => rw [stepOp, unregisterGlobal_primVer, h]
  | get t => exact h

theorem runOps_primVer_preserved (version : String) (ops : List (Op α))
    (s : ModuleState × OTelGlobal α) (v : String)
    (h : primVer s.2 = some v) : primVer (runOps version ops s).2 = some v := by
  induction ops generalizing s with
  | nil => exact h
  | cons op ops ih =>
    exact ih (stepOp version op s) (stepOp_primVer_preserved version op s v h)

end OTelGlobalUtils

namespace OTelGlobalUtils

variable {α : Type}

theorem registerGlobal_g (version : String) (t : Typ) (inst : α) (ao : Bool)
    (ms : ModuleState) (g : OTelGlobal α) :
    (registerGlobal version t inst ao ms g).g =
      (primaryWrite version t inst ao
        (scopedWrite version t inst ao (materializeScopedKey version ao ms) g).1).2.1 := rfl

theorem registerGlobal_ret (version : String) (t : Typ) (inst : α) (ao : Bool)
    (ms : ModuleState) (g : OTelGlobal α) :
    (registerGlobal version t inst ao ms g).ret =
      (primaryWrite version t inst ao
        (scopedWrite version t inst ao (materializeScopedKey version ao ms) g).1).1 := rfl

theorem registerGlobal_log (version : String) (t : Typ) (inst : α) (ao : Bool)
    (ms : ModuleState) (g : OTelGlobal α) :
    (registerGlobal version t inst ao ms g).log =
      (scopedWrite version t inst ao (materializeScopedKey version ao ms) g).2 ++
      (primaryWrite version t inst ao
        (scopedWrite version t inst ao (materializeScopedKey version ao ms) g).1).2.2 := rfl

theorem registerGlobal_false_eq (version : String) (t : Typ) (inst : α)
    (ms : ModuleState) (g : OTelGlobal α) :
    registerGlobal version t inst false ms g =
      { ret := (primaryWrite version t inst false g).1, ms := ms,
        g := (primaryWrite version t inst false g).2.1,
        log := (primaryWrite version t inst false g).2.2 } := by
  simp [registerGlobal, materializeScopedKey, scopedWrite]

theorem primaryWrite_success (version : String) (t : Typ) (inst : α) (ao : Bool)
    (g : OTelGlobal α)
    (hdup : ao = true ∨ getSlot (g.primary.getD (newApiTable version)) t = none)
    (hver : (g.primary.getD (newApiTable version)).version = version) :
    primaryWrite version t inst ao g =
      (true,
       { g with primary := some (setSlot (g.primary.getD (newApiTable version)) t inst) },
       [LogEvent.debug ("@opentelemetry/api: Registered a global for " ++ typName t
          ++ " v" ++ version ++ ".")]) := by
  have h1 : ¬(ao = false ∧ (getSlot (g.primary.getD (newApiTable version)) t).isSome = true) := by
    rcases hdup with h | h <;> rintro ⟨h2, h3⟩
    · rw [h] at h2
      exact absurd h2 (by simp)
    · rw [h] at h3
      exact absurd h3 (by simp)
  simp only [primaryWrite]
  rw [if_neg h1, if_neg (not_ne_iff.mpr hver)]

theorem registerGlobal_false_dup (version : String) (t : Typ) (inst : α)
    (ms : ModuleState) (g : OTelGlobal α) (api : OTelGlobalAPI α)
    (hp : g.primary = some api) (hreg : (getSlot api t).isSome = true) :
    registerGlobal version t inst false ms g =
      { ret := false, ms := ms, g := g,
        log := [LogEvent.error
          ("@opentelemetry/api: Attempted duplicate registration of API: "
            ++ typName t)] } := by
  rw [registerGlobal_false_eq]
  simp only [primaryWrite, hp, Option.getD_some]
  rw [if_pos (show True ∧ (getSlot api t).isSome = true from ⟨trivial, hreg⟩)]
  simp [← hp]

theorem primaryWrite_mismatch (version : String) (t : Typ) (inst : α) (ao : Bool)
    (g : OTelGlobal α) (api : OTelGlobalAPI α)
    (hp : g.primary = some api) (hver : api.version ≠ version) :
    (primaryWrite version t inst ao g).1 = false ∧
    (primaryWrite version t inst ao g).2.1.primary = some api ∧
    ∃ m, (primaryWrite version t inst ao g).2.2 = [LogEvent.error m] := by
  simp only [primaryWrite, hp, Option.getD_some]
  by_cases hc : ao = false ∧ (getSlot api t).isSome = true
  · rw [if_pos hc]
    exact ⟨rfl, rfl, ⟨_, rfl⟩⟩
  · rw [if_neg hc, if_pos hver]
    exact ⟨rfl, rfl, ⟨_, rfl⟩⟩

/-- C2: if no prior registration exists for capability `t` (the Primary Table
slot is absent and the table, if present, is stamped with the build's own
version), the build's version string is a real (nonempty) semver string, and
the compatibility predicate accepts the build's own version, then
`register(t, inst, logger, allowOverride=false)` returns `true` and an
immediately following `get(t)` returns `inst`. -/
theorem register_then_get_roundtrip (version : String) (compat : String → Bool)
    (t : Typ) (inst : α) (ms : ModuleState) (g : OTelGlobal α)
    (hv : version ≠ "") (hc : compat version = true)
    (hfree : g.primary = none ∨
      ∃ api, g.primary = some api ∧ getSlot api t = none ∧ api.version = version) :
    (registerGlobal version t inst false ms g).ret = true ∧
    getGlobal compat (registerGlobal version t inst false ms g).g t = some inst := by
  have hque : getSlot (g.primary.getD (newApiTable version)) t = none ∧
      (g.primary.getD (newApiTable version)).version = version := by
    rcases hfree with h | ⟨api, h, h2, h3⟩
    · rw [h]
      exact ⟨getSlot_newApiTable version t, rfl⟩
    · rw [h]
      exact ⟨h2, h3⟩
  rw [registerGlobal_false_eq,
    primaryWrite_success version t inst false g (Or.inr hque.1) hque.2]
  refine ⟨rfl, ?_⟩
  simp [getGlobal, setSlot_version, hque.2, hv, hc, getSlot_setSlot_same]

/-- Witness for `register_then_get_roundtrip`: registering `7` for `diag` in a
fresh state with version `1.4.0` succeeds and `get` returns `7`. -/
theorem register_then_get_roundtrip_witness :
    (registerGlobal "1.4.0" Typ.diag (7 : Nat) false (moduleInit 5)
      ⟨none, none⟩).ret = true ∧
    getGlobal (fun _ => true) (registerGlobal "1.4.0" Typ.diag (7 : Nat) false
      (moduleInit 5) ⟨none, none⟩).g Typ.diag = some 7 :=
  register_then_get_roundtrip "1.4.0" (fun _ => true) Typ.diag 7 (moduleInit 5)
    ⟨none, none⟩ (by decide) rfl (Or.inl rfl)

/-- C3: a non-override registration for a capability already present in the
Primary Table returns `false`, emits an error diagnostic, and leaves the value
returned by a subsequent `get` for that capability unchanged. -/
theorem duplicate_registration_rejected (version : String) (compat : String → Bool)
    (t : Typ) (inst2 : α) (ms : ModuleState) (g : OTelGlobal α)
    (api : OTelGlobalAPI α) (hp : g.primary = some api)
    (hreg : (getSlot api t).isSome = true) :
    (registerGlobal version t inst2 false ms g).ret = false ∧
    (∃ m, LogEvent.error m ∈ (registerGlobal version t inst2 false ms g).log) ∧
    getGlobal compat (registerGlobal version t inst2 false ms g).g t =
      getGlobal compat g t := by
  rw [registerGlobal_false_dup version t inst2 ms g api hp hreg]
  exact ⟨rfl, ⟨_, List.mem_singleton_self _⟩, rfl⟩

/-- Witness for `duplicate_registration_rejected`: re-registering `trace` over
an existing registration of `1` fails, logs an error, and `get` still sees the
old value. -/
theorem duplicate_registration_rejected_witness :
    (registerGlobal "1.4.0" Typ.trace (2 : Nat) false (moduleInit 5)
      ⟨some (setSlot (newApiTable "1.4.0") Typ.trace 1), none⟩).ret = false ∧
    (∃ m, LogEvent.error m ∈ (registerGlobal "1.4.0" Typ.trace (2 : Nat) false
      (moduleInit 5) ⟨some (setSlot (newApiTable "1.4.0") Typ.trace 1), none⟩).log) ∧
    getGlobal (fun _ => true) (registerGlobal "1.4.0" Typ.trace (2 : Nat) false
      (moduleInit 5) ⟨some (setSlot (newApiTable "1.4.0") Typ.trace 1), none⟩).g Typ.trace =
      getGlobal (fun _ => true)
        (⟨some (setSlot (newApiTable "1.4.0") Typ.trace 1), none⟩ : OTelGlobal Nat) Typ.trace :=
  duplicate_registration_rejected "1.4.0" (fun _ => true) Typ.trace 2 (moduleInit 5)
    _ _ rfl rfl

/-- C4: if the Primary Table exists and its stamped version differs from the
build's version string, `register` returns `false` for either `allowOverride`
policy, emits an error diagnostic, and leaves the whole Primary Table (hence
every slot value) unchanged. -/
theorem version_mismatch_rejected (version : String) (t : Typ) (inst : α)
    (ao : Bool) (ms : ModuleState) (g : OTelGlobal α) (api : OTelGlobalAPI α)
    (hp : g.primary = some api) (hver : api.version ≠ version) :
    (registerGlobal version t inst ao ms g).ret = false ∧
    (∃ m, LogEvent.error m ∈ (registerGlobal version t inst ao ms g).log) ∧
    (registerGlobal version t inst ao ms g).g.primary = some api := by
  have hp2 : (scopedWrite version t inst ao
      (materializeScopedKey version ao ms) g).1.primary = some api := by
    rw [scopedWrite_primary, hp]
  obtain ⟨h1, h2, m, h3⟩ := primaryWrite_mismatch version t inst ao _ api hp2 hver
  refine ⟨?_, ⟨m, ?_⟩, ?_⟩
  · rw [registerGlobal_ret]
    exact h1
  · rw [registerGlobal_log, h3]
    exact List.mem_append_right _ (List.mem_singleton_self _)
  · rw [registerGlobal_g]
    exact h2

/-- Witness for `version_mismatch_rejected`: a table stamped `0.1.0` rejects a
registration from build `1.4.0` and is left intact. -/
theorem version_mismatch_rejected_witness :
    (registerGlobal "1.4.0" Typ.metrics (9 : Nat) true (moduleInit 5)
      ⟨some (newApiTable "0.1.0"), none⟩).ret = false ∧
    (∃ m, LogEvent.error m ∈ (registerGlobal "1.4.0" Typ.metrics (9 : Nat) true
      (moduleInit 5) ⟨some (newApiTable "0.1.0"), none⟩).log) ∧
    (registerGlobal "1.4.0" Typ.metrics (9 : Nat) true (moduleInit 5)
      ⟨some (newApiTable "0.1.0"), none⟩).g.primary = some (newApiTable "0.1.0") :=
  version_mismatch_rejected "1.4.0" Typ.metrics 9 true (moduleInit 5)
    _ _ rfl (by decide)

end OTelGlobalUtils

namespace OTelGlobalUtils

variable {α : Type}

/-- C5: the Primary Table's version field, once set by its first writer, is
never changed by any sequence of register, get, or unregister operations; and
after any successful registration the stamp equals the build's version (so it
stays the build's version across registrations of other capabilities). -/
theorem version_stamp_immutable (version : String) :
    (∀ (α : Type) (ops : List (Op α)) (s : ModuleState × OTelGlobal α)
      (v : String), primVer s.2 = some v →
      primVer (runOps version ops s).2 = some v) ∧
    (∀ (α : Type) (t : Typ) (inst : α) (ao : Bool) (ms : ModuleState)
      (g : OTelGlobal α), (registerGlobal version t inst ao ms g).ret = true →
      primVer (registerGlobal version t inst ao ms g).g = some version) :=
  ⟨fun _ ops s v h => runOps_primVer_preserved version ops s v h,
   fun _ t inst ao ms g h => registerGlobal_ret_true_primVer version t inst ao ms g h⟩

/-- Witness for `version_stamp_immutable`: a register-unregister-get sequence
keeps the stamp `1.4.0`, and a successful first registration stamps `1.4.0`. -/
theorem version_stamp_immutable_witness :
    primVer (runOps "1.4.0"
      [Op.register Typ.trace (1 : Nat) true, Op.unregister Typ.trace,
       Op.get Typ.diag]
      (moduleInit 5, ⟨some (newApiTable "1.4.0"), none⟩)).2 = some "1.4.0" ∧
    primVer (registerGlobal "1.4.0" Typ.diag (3 : Nat) false (moduleInit 7)
      (⟨none, none⟩ : OTelGlobal Nat)).g = some "1.4.0" :=
  ⟨(version_stamp_immutable "1.4.0").1 Nat _ _ "1.4.0" rfl,
   (version_stamp_immutable "1.4.0").2 Nat Typ.diag 3 false (moduleInit 7)
     ⟨none, none⟩ rfl⟩

/-- C6: for distinct registered capabilities `A` and `B`, `unregister(A)`
makes `get(A)` absent while `get(B)` is unchanged; unregister never modifies
the Scoped Table or the Primary Table's version field, and emits exactly one
debug diagnostic unconditionally, for every state of the shared global
object. -/
theorem unregister_clears_one_slot (version : String) (compat : String → Bool)
    {A B : Typ} (g : OTelGlobal α) (api : OTelGlobalAPI α) (a b : α)
    (hAB : A ≠ B) (hp : g.primary = some api)
    (hA : getSlot api A = some a) (hB : getSlot api B = some b) :
    getGlobal compat (unregisterGlobal version A g).1 A = none ∧
    getGlobal compat (unregisterGlobal version A g).1 B = getGlobal compat g B ∧
    (unregisterGlobal version A g).1.scopedTable = g.scopedTable ∧
    primVer (unregisterGlobal version A g).1 = primVer g ∧
    (∀ g2 : OTelGlobal α, ∃ m, (unregisterGlobal version A g2).2 =
      [LogEvent.debug m]) := by
  have hu : (unregisterGlobal version A g).1 =
      { g with primary := some (delSlot api A) } := by
    simp only [unregisterGlobal, hp]
  refine ⟨?_, ?_, unregisterGlobal_scopedTable version A g,
    unregisterGlobal_primVer version A g, fun g2 => ⟨_, rfl⟩⟩
  · rw [hu]
    simp only [getGlobal]
    split
    · rfl
    · exact getSlot_delSlot_same api A
  · rw [hu]
    simp only [getGlobal, hp, delSlot_version, getSlot_delSlot_ne api hAB]

/-- Witness for `unregister_clears_one_slot`: with `trace := 1` and
`metrics := 2` registered, unregistering `trace` hides `trace`, keeps
`metrics`, and leaves the scoped table, stamp, and debug log as stated. -/
theorem unregister_clears_one_slot_witness :
    getGlobal (fun _ => true)
      (unregisterGlobal "1.4.0" Typ.trace
        (⟨some (setSlot (setSlot (newApiTable "1.4.0") Typ.trace 1) Typ.metrics 2),
          none⟩ : OTelGlobal Nat)).1 Typ.trace = none ∧
    getGlobal (fun _ => true)
      (unregisterGlobal "1.4.0" Typ.trace
        (⟨some (setSlot (setSlot (newApiTable "1.4.0") Typ.trace 1) Typ.metrics 2),
          none⟩ : OTelGlobal Nat)).1 Typ.metrics =
      getGlobal (fun _ => true)
        (⟨some (setSlot (setSlot (newApiTable "1.4.0") Typ.trace 1) Typ.metrics 2),
          none⟩ : OTelGlobal Nat) Typ.metrics ∧
    (unregisterGlobal "1.4.0" Typ.trace
      (⟨some (setSlot (setSlot (newApiTable "1.4.0") Typ.trace 1) Typ.metrics 2),
        none⟩ : OTelGlobal Nat)).1.scopedTable = none ∧
    primVer (unregisterGlobal "1.4.0" Typ.trace
      (⟨some (setSlot (setSlot (newApiTable "1.4.0") Typ.trace 1) Typ.metrics 2),
        none⟩ : OTelGlobal Nat)).1 =
      primVer (⟨some (setSlot (setSlot (newApiTable "1.4.0") Typ.trace 1) Typ.metrics 2),
        none⟩ : OTelGlobal Nat) ∧
    (∀ g2 : OTelGlobal Nat, ∃ m, (unregisterGlobal "1.4.0" Typ.trace g2).2 =
      [LogEvent.debug m]) :=
  unregister_clears_one_slot "1.4.0" (fun _ => true) _ _ 1 2
    (by decide) rfl (by decide) (by decide)

theorem scopedWrite_no_error (version : String) (t : Typ) (inst : α) (ao : Bool)
    (ms : ModuleState) (g : OTelGlobal α) (m : String) :
    LogEvent.error m ∉ (scopedWrite version t inst ao ms g).2 := by
  simp only [scopedWrite]
  split <;> simp

theorem primaryWrite_error_iff (version : String) (t : Typ) (inst : α)
    (ao : Bool) (g : OTelGlobal α) :
    (∃ m, LogEvent.error m ∈ (primaryWrite version t inst ao g).2.2) ↔
      (primaryWrite version t inst ao g).1 = false := by
  simp only [primaryWrite]
  split
  · simp
  · split <;> simp

/-- C9: `register` never raises: it is a total function of its inputs, and the
failure paths are exactly the runs that emit an error diagnostic — an error
event appears in the log if and only if the call returns `false` (failures are
reported via the logger and the boolean return, never via a thrown
exception). -/
theorem register_failure_reported (version : String) (t : Typ) (inst : α)
    (ao : Bool) (ms : ModuleState) (g : OTelGlobal α) :
    (∃ m, LogEvent.error m ∈ (registerGlobal version t inst ao ms g).log) ↔
      (registerGlobal version t inst ao ms g).ret = false := by
  rw [registerGlobal_log, registerGlobal_ret]
  constructor
  · rintro ⟨m, hm⟩
    rcases List.mem_append.mp hm with h | h
    · exact absurd h (scopedWrite_no_error version t inst ao _ g m)
    · exact (primaryWrite_error_iff version t inst ao _).mp ⟨m, h⟩
  · intro h
    obtain ⟨m, hm⟩ := (primaryWrite_error_iff version t inst ao _).mpr h
    exact ⟨m, List.mem_append_right _ hm⟩

/-- C10: when the Primary Table exists but carries a falsy version field (the
empty string is the only falsy string value), `get` returns absent for every
compatibility predicate whatsoever — in particular for predicates that would
accept the stored version — and the `get` step never mutates the module state
or the shared global object. -/
theorem falsy_version_get_absent (version : String) (compat : String → Bool)
    (t : Typ) (ms : ModuleState) (g : OTelGlobal α) (api : OTelGlobalAPI α)
    (hp : g.primary = some api) (hv : api.version = "") :
    getGlobal compat g t = none ∧
    stepOp version (Op.get t) (ms, g) = (ms, g) := by
  constructor
  · simp only [getGlobal, hp]
    rw [if_pos (Or.inl hv)]
  · rfl

/-- Witness for `falsy_version_get_absent`: a table stamped `""` is invisible
to `get` even under the always-accepting predicate. -/
theorem falsy_version_get_absent_witness :
    getGlobal (fun _ => true)
      (⟨some (newApiTable ""), none⟩ : OTelGlobal Nat) Typ.diag = none ∧
    stepOp "1.4.0" (Op.get Typ.diag)
      (moduleInit 5, (⟨some (newApiTable ""), none⟩ : OTelGlobal Nat)) =
      (moduleInit 5, ⟨some (newApiTable ""), none⟩) :=
  falsy_version_get_absent "1.4.0" (fun _ => true) Typ.diag (moduleInit 5)
    _ _ rfl rfl

end OTelGlobalUtils

namespace OTelGlobalUtils

variable {α : Type}

/-- C1 counterexample: starting from an empty shared global object,
`register(trace, 1, allowOverride=true)` followed by
`register(trace, 2, allowOverride=false)` leaves `get(trace)` returning `1`
(the first instance), not `2` as the claim states: the override registration
also wrote the Primary Table, so the second call was rejected as a
duplicate. -/
theorem override_then_register_get_counterexample :
    getGlobal (fun _ => true)
      (registerGlobal "1.4.0" Typ.trace (2 : Nat) false
        (registerGlobal "1.4.0" Typ.trace (1 : Nat) true (moduleInit 5)
          ⟨none, none⟩).ms
        (registerGlobal "1.4.0" Typ.trace (1 : Nat) true (moduleInit 5)
          ⟨none, none⟩).g).g Typ.trace = some 1 ∧
    ¬ getGlobal (fun _ => true)
      (registerGlobal "1.4.0" Typ.trace (2 : Nat) false
        (registerGlobal "1.4.0" Typ.trace (1 : Nat) true (moduleInit 5)
          ⟨none, none⟩).ms
        (registerGlobal "1.4.0" Typ.trace (1 : Nat) true (moduleInit 5)
          ⟨none, none⟩).g).g Typ.trace = some 2 := by
  exact ⟨rfl, by decide⟩

/-- C1 amended: for every capability `t` and instances `i1`, `i2`, starting
from a state with no prior registration: `register(t, i1, allowOverride=true)`
followed by `register(t, i2, allowOverride=false)` leaves the second call
rejected as a duplicate (returns `false`, because the override registration
wrote the Primary Table as well as the Scoped Table), and `get(t)` returns
`i1` — the Primary Table value; the Scoped Table remains invisible to the
standard read path, whose result always comes from the Primary Table. -/
theorem override_then_register_get (version : String) (compat : String → Bool)
    (t : Typ) (i1 i2 : α) (ms : ModuleState)
    (hv : version ≠ "") (hc : compat version = true) :
    (registerGlobal version t i2 false
      (registerGlobal version t i1 true ms ⟨none, none⟩).ms
      (registerGlobal version t i1 true ms ⟨none, none⟩).g).ret = false ∧
    getGlobal compat
      (registerGlobal version t i2 false
        (registerGlobal version t i1 true ms ⟨none, none⟩).ms
        (registerGlobal version t i1 true ms ⟨none, none⟩).g).g t = some i1 := by
  have h1 : (registerGlobal version t i1 true ms (⟨none, none⟩ : OTelGlobal α)).g.primary
      = some (setSlot (newApiTable version) t i1) := by
    rw [registerGlobal_g, primaryWrite_success version t i1 true _ (Or.inl rfl)
      (by rw [scopedWrite_primary]; rfl)]
    rw [scopedWrite_primary]
    rfl
  rw [registerGlobal_false_dup version t i2 _ _ _ h1
    (by rw [getSlot_setSlot_same]; rfl)]
  refine ⟨rfl, ?_⟩
  simp [getGlobal, h1, setSlot_version, newApiTable, hv, hc, getSlot_setSlot_same]

/-- Witness for `override_then_register_get` at capability `context`,
instances `3` and `4`, version `1.4.0`. -/
theorem override_then_register_get_witness :
    (registerGlobal "1.4.0" Typ.context (4 : Nat) false
      (registerGlobal "1.4.0" Typ.context (3 : Nat) true (moduleInit 8)
        ⟨none, none⟩).ms
      (registerGlobal "1.4.0" Typ.context (3 : Nat) true (moduleInit 8)
        ⟨none, none⟩).g).ret = false ∧
    getGlobal (fun _ => true)
      (registerGlobal "1.4.0" Typ.context (4 : Nat) false
        (registerGlobal "1.4.0" Typ.context (3 : Nat) true (moduleInit 8)
          ⟨none, none⟩).ms
        (registerGlobal "1.4.0" Typ.context (3 : Nat) true (moduleInit 8)
          ⟨none, none⟩).g).g Typ.context = some 3 :=
  override_then_register_get "1.4.0" (fun _ => true) Typ.context 3 4
    (moduleInit 8) (by decide) rfl

theorem stepOp_instanceId (version : String) (op : Op α)
    (s : ModuleState × OTelGlobal α) :
    (stepOp version op s).1.instanceId = s.1.instanceId := by
  cases op with
  | register t inst ao =>
    show (materializeScopedKey version ao s.1).instanceId = s.1.instanceId
    simp only [materializeScopedKey]
    split <;> rfl
  | unregister t => rfl
  | get t => rfl

theorem runOps_instanceId (version : String) (ops : List (Op α))
    (s : ModuleState × OTelGlobal α) :
    (runOps version ops s).1.instanceId = s.1.instanceId := by
  induction ops generalizing s with
  | nil => rfl
  | cons op ops ih =>
    rw [show runOps version (op :: ops) s = runOps version ops (stepOp version op s)
      from rfl, ih, stepOp_instanceId]

theorem runOps_scopedKey_none (version : String) (ops : List (Op α))
    (s : ModuleState × OTelGlobal α) (hops : hasOverrideReg ops = false)
    (h : s.1.scopedKey = none) : (runOps version ops s).1.scopedKey = none := by
  induction ops generalizing s with
  | nil => exact h
  | cons op ops ih =>
    cases op with
    | register t inst ao =>
      cases ao with
      | false =>
        have h2 : (stepOp version (Op.register t inst false) s).1.scopedKey = none := by
          show (materializeScopedKey version false s.1).scopedKey = none
          simp [materializeScopedKey, h]
        exact ih _ (by simpa [hasOverrideReg] using hops) h2
      | true => simp [hasOverrideReg] at hops
    | unregister t => exact ih _ (by simpa [hasOverrideReg] using hops) h
    | get t => exact ih _ (by simpa [hasOverrideReg] using hops) h

/-- C7 counterexample: the per-process instance identifier is already
materialized at module initialization (it is a module-level constant sourced
from the clock at load time), before any register call has happened — with
clock reading `5`, the freshly initialized module state carries `some 5`, not
the absent value the claim requires before the first override
registration. -/
theorem instance_id_eager_counterexample :
    (moduleInit 5).instanceId = some 5 ∧ some 5 ≠ (none : Option Nat) :=
  ⟨rfl, by decide⟩

/-- C7 amended: the per-process instance identifier is sourced from a clock
reading eagerly, once, at module initialization, and never changed by any
operation; what is materialized lazily, at most once, at the first register
call with `allowOverride=true` — and never before an override registration —
is the Scoped Table key derived from the identifier. -/
theorem scoped_key_lazy (version : String) :
    (∀ (c : Nat), (moduleInit c).instanceId = some c ∧
      (moduleInit c).scopedKey = none) ∧
    (∀ (α : Type) (ops : List (Op α)) (s : ModuleState × OTelGlobal α),
      hasOverrideReg ops = false → s.1.scopedKey = none →
      (runOps version ops s).1.scopedKey = none) ∧
    (∀ (α : Type) (t : Typ) (inst : α) (ms : ModuleState) (g : OTelGlobal α),
      ms.scopedKey = none →
      (registerGlobal version t inst true ms g).ms.scopedKey =
        some (scopedKeyFor version ms)) ∧
    (∀ (α : Type) (t : Typ) (inst : α) (ao : Bool) (ms : ModuleState)
      (g : OTelGlobal α) (k : String), ms.scopedKey = some k →
      (registerGlobal version t inst ao ms g).ms.scopedKey = some k) ∧
    (∀ (α : Type) (ops : List (Op α)) (s : ModuleState × OTelGlobal α),
      (runOps version ops s).1.instanceId = s.1.instanceId) := by
  refine ⟨fun c => ⟨rfl, rfl⟩,
    fun _ ops s hops h => runOps_scopedKey_none version ops s hops h,
    fun _ t inst ms g h => ?_, fun _ t inst ao ms g k h => ?_,
    fun _ ops s => runOps_instanceId version ops s⟩
  · rw [registerGlobal_ms]
    simp [materializeScopedKey, h]
  · rw [registerGlobal_ms]
    simp [materializeScopedKey, h]

/-- Witness for `scoped_key_lazy`: a non-override register plus an unregister
leave the scoped key unmaterialized; a first override register materializes
exactly the derived key; a later call keeps it; the identifier persists. -/
theorem scoped_key_lazy_witness :
    ((moduleInit 5).instanceId = some 5 ∧ (moduleInit 5).scopedKey = none) ∧
    (runOps "1.4.0" [Op.register Typ.diag (1 : Nat) false, Op.unregister Typ.diag]
      (moduleInit 5, (⟨none, none⟩ : OTelGlobal Nat))).1.scopedKey = none ∧
    (registerGlobal "1.4.0" Typ.diag (1 : Nat) true (moduleInit 5)
      (⟨none, none⟩ : OTelGlobal Nat)).ms.scopedKey =
      some (scopedKeyFor "1.4.0" (moduleInit 5)) ∧
    (registerGlobal "1.4.0" Typ.diag (2 : Nat) false
      ⟨some 5, some "k"⟩ (⟨none, none⟩ : OTelGlobal Nat)).ms.scopedKey = some "k" ∧
    (runOps "1.4.0" [Op.register Typ.diag (1 : Nat) true]
      (moduleInit 5, (⟨none, none⟩ : OTelGlobal Nat))).1.instanceId = some 5 :=
  ⟨(scoped_key_lazy "1.4.0").1 5,
   (scoped_key_lazy "1.4.0").2.1 Nat _ _ rfl rfl,
   (scoped_key_lazy "1.4.0").2.2.1 Nat Typ.diag 1 (moduleInit 5) ⟨none, none⟩ rfl,
   (scoped_key_lazy "1.4.0").2.2.2.1 Nat Typ.diag 2 false ⟨some 5, some "k"⟩
     ⟨none, none⟩ "k" rfl,
   (scoped_key_lazy "1.4.0").2.2.2.2 Nat _ _⟩

/-- C8 counterexample: if an entry already exists on the shared global object
under the scoped key (version-stamped `0.0.0`), a register call with
`allowOverride=true` from build `1.4.0` reuses that table instead of creating
a fresh one: afterwards the Scoped Table exists but its version is `0.0.0`,
not the current build's `1.4.0`. -/
theorem scoped_table_inherited_counterexample :
    Option.map (fun api => api.version)
      (registerGlobal "1.4.0" Typ.trace (1 : Nat) true (moduleInit 5)
        ⟨none, some (newApiTable "0.0.0")⟩).g.scopedTable = some "0.0.0" ∧
    "0.0.0" ≠ "1.4.0" :=
  ⟨rfl, by decide⟩

theorem materializeScopedKey_isSome (version : String) (ms : ModuleState) :
    (materializeScopedKey version true ms).scopedKey.isSome = true := by
  simp only [materializeScopedKey]
  split
  · rfl
  · rename_i h
    cases hk : ms.scopedKey with
    | none => exact absurd (by simp [hk]) h
    | some k => simp [hk]

theorem scopedWrite_true_scopedTable (version : String) (t : Typ) (inst : α)
    (ms : ModuleState) (g : OTelGlobal α) (hk : ms.scopedKey.isSome = true) :
    (scopedWrite version t inst true ms g).1.scopedTable =
      some (setSlot (g.scopedTable.getD (newApiTable version)) t inst) := by
  simp only [scopedWrite]
  split
  · rfl
  · rename_i h
    exact absurd (by simp [hk]) h

/-- C8 amended: after any register call with `allowOverride=true` the Scoped
Table exists, and its version field equals the current build's version exactly
when the slot under the scoped key was previously absent (the table is then
created fresh); a pre-existing entry under the scoped key is inherited and
reused, so its original version field — whatever instance wrote it — is
preserved. -/
theorem scoped_table_version (version : String) (t : Typ) (inst : α)
    (ms : ModuleState) (g : OTelGlobal α) :
    (g.scopedTable = none →
      Option.map (fun api => api.version)
        (registerGlobal version t inst true ms g).g.scopedTable = some version) ∧
    (∀ old, g.scopedTable = some old →
      Option.map (fun api => api.version)
        (registerGlobal version t inst true ms g).g.scopedTable =
          some old.version) := by
  have hsw := scopedWrite_true_scopedTable version t inst
    (materializeScopedKey version true ms) g (materializeScopedKey_isSome version ms)
  constructor
  · intro h
    rw [registerGlobal_g, primaryWrite_scopedTable, hsw, h]
    simp [newApiTable, setSlot_version]
  · intro old h
    rw [registerGlobal_g, primaryWrite_scopedTable, hsw, h]
    simp [setSlot_version]

/-- Witness for `scoped_table_version`: with no pre-existing scoped entry the
fresh table is stamped `1.4.0`; with a pre-existing `0.9.9` table it keeps
`0.9.9`. -/
theorem scoped_table_version_witness :
    Option.map (fun api => api.version)
      (registerGlobal "1.4.0" Typ.context (4 : Nat) true (moduleInit 9)
        (⟨none, none⟩ : OTelGlobal Nat)).g.scopedTable = some "1.4.0" ∧
    Option.map (fun api => api.version)
      (registerGlobal "1.4.0" Typ.context (4 : Nat) true (moduleInit 9)
        (⟨none, some (newApiTable "0.9.9")⟩ : OTelGlobal Nat)).g.scopedTable =
      some "0.9.9" :=
  ⟨(scoped_table_version "1.4.0" Typ.context 4 (moduleInit 9) ⟨none, none⟩).1 rfl,
   (scoped_table_version "1.4.0" Typ.context 4 (moduleInit 9)
     ⟨none, some (newApiTable "0.9.9")⟩).2 (newApiTable "0.9.9") rfl⟩

end OTelGlobalUtils
